import Mathlib

/-!
Verification development for the hotel inventory-ledger and booking
state-machine backend.  The Python sources under `app/graphql/mutations`
(`booking_mutations.py`, `room_mutations.py`) are shallowly embedded as pure
Lean functions over an explicit database state.  Mongo collections become
lists of documents; `find_one` becomes `List.find?` (first match);
`update_one` becomes `updateOneBy` (update the first matching document,
reporting the matched count); `update_many` becomes a `List.map`.  Every
mutation returns the mutated state together with an `Except`-style outcome,
because in the source the database writes performed before an exception
persist even though the exception aborts the rest of the handler.  Datetimes
are modelled as integers (a day index for dates, an abstract tick for
`utcnow`); money (Python floats) is modelled as rationals.
-/

/-- Booking lifecycle states, from `BookingStatus` in `types/booking.py`. -/
inductive BookingStatus where
  | pending
  | confirmed
  | checkedIn
  | checkedOut
  | cancelled
  | noShow
deriving DecidableEq, Repr

/-- Payment states, from `PaymentStatus` in `types/booking.py`; the source's
PARTIAL value is spelled `partiallyPaid` here. -/
inductive PaymentStatus where
  | pending
  | partiallyPaid
  | paid
  | refunded
  | failed
deriving DecidableEq, Repr

/-- Physical room states, from `RoomStatus` in `types/room.py`. -/
inductive RoomStatus where
  | available
  | occupied
  | maintenance
  | cleaning
  | blocked
  | outOfOrder
deriving DecidableEq, Repr

/-- Error outcomes, one constructor per `raise ValueError` site reached in the
embedded code paths (all surface as a single `ValueError` per operation). -/
inductive BookingError where
  | inventoryNotConfigured (room_type : String) (date : Int)
  | notEnoughRooms (room_type : String) (date : Int)
  | lockFailed (room_type : String) (date : Int)
  | pricingNotConfigured (room_type : String)
  | bookingNotFound
  | notConfirmed
  | keyErrorRoomTypeSummary
  | roomCountMismatch (room_type : String)
  | invalidRooms (room_type : String)
  | inventoryRace (room_type : String) (date : Int)
  | notCancellable
  | notCheckedIn
  | roomNotFound
deriving DecidableEq, Repr

/-- The spec's `InsufficientInventory` taxonomy entry: per §4.1 it covers both
the absent-row case and the failed `available_rooms >= n` guard (the three
raise sites of the per-night reservation in `create_booking`). -/
def BookingError.isInsufficientInventory : BookingError → Bool
  | .inventoryNotConfigured _ _ => true
  | .notEnoughRooms _ _ => true
  | .lockFailed _ _ => true
  | _ => false

/-- Guest contact block built by `create_booking` (step 3). -/
structure Guest where
  first_name : String
  last_name : String
  email : String
  phone : String
  city : Option String
  country : Option String
  id_type : Option String
  id_number : Option String
  special_requests : Option String
  address : Option String
deriving DecidableEq, Repr

/-- A payment record as pushed by `add_payment`. -/
structure Payment where
  method : String
  amount : ℚ
  transaction_id : Option String
  transaction_date : Int
  status : String
  notes : Option String
deriving DecidableEq, Repr

/-- An element of a booking document's `room_type_bookings` list. -/
structure StoredRoomTypeBooking where
  room_type : String
  number_of_rooms : Int
  room_ids : List String
deriving DecidableEq, Repr

/-- An element of the legacy `room_type_summary` list read by
`assign_rooms_to_booking` (and only by it). -/
structure RoomTypeSummaryEntry where
  room_type : String
  number_of_rooms : Int
deriving DecidableEq, Repr

/-- A document of the `roomInventory` collection. -/
structure InventoryRow where
  hotel_id : String
  room_type : String
  date : Int
  total_rooms : Int
  available_rooms : Int
  locked_rooms : Int
  booked_rooms : Int
  updated_at : Int
deriving DecidableEq, Repr

abbrev Ledger := List InventoryRow

/-- A document of the `rooms` collection (the fields the embedded operations
read or write). -/
structure RoomDoc where
  id : String
  hotel_id : String
  room_number : String
  room_type : String
  status : RoomStatus
  price_per_night : ℚ
  is_active : Bool
  updated_at : Int
deriving DecidableEq, Repr

/-- A document of the `hotels` collection (the fields `delete_room` touches). -/
structure HotelDoc where
  id : String
  floor_count : Int
  room_count : Int
  updated_at : Int
deriving DecidableEq, Repr

/-- A document of the `bookings` collection, with the fields `create_booking`
writes.  `room_type_summary` is an `Option` because that key is absent from
documents written by `create_booking` (a Python `KeyError` on access);
`room_ids` is read with `.get("room_ids", [])` so the absent key is modelled
as the empty list. -/
structure BookingDoc where
  id : String
  hotel_id : String
  room_type_bookings : List StoredRoomTypeBooking
  room_type_summary : Option (List RoomTypeSummaryEntry)
  booking_number : String
  guest : Guest
  booking_status : BookingStatus
  payment_status : PaymentStatus
  booking_source : String
  check_in_date : Int
  check_out_date : Int
  number_of_guests : Int
  rate_plan : Option String
  tax_amount : ℚ
  base_amount : ℚ
  total_amount : ℚ
  payments : List Payment
  room_ids : List String
  check_in_time : Option Int
  check_out_time : Option Int
  special_requests : Option String
  created_at : Int
  updated_at : Int
  created_by : String
  updated_by : String
deriving DecidableEq, Repr

/-- The database: the four collections the embedded operations touch. -/
structure DBState where
  bookings : List BookingDoc
  rooms : List RoomDoc
  roomInventory : Ledger
  hotels : List HotelDoc
deriving DecidableEq, Repr

/-- An element of `BookingInput.room_type_bookings`. -/
structure RoomTypeBookingsInputT where
  room_type : String
  number_of_rooms : Int
  room_ids : Option (List String)
deriving DecidableEq, Repr

/-- The `BookingInput` GraphQL input type. -/
structure BookingInputT where
  hotel_id : String
  guest : Guest
  booking_source : String
  check_in_date : Int
  check_out_date : Int
  number_of_guests : Int
  rate_plan : Option String
  room_type_bookings : List RoomTypeBookingsInputT
  special_requests : Option String
deriving DecidableEq, Repr

/-- The `RoomAssignmentInput` GraphQL input type. -/
structure RoomAssignmentInputT where
  room_type : String
  room_ids : List String
deriving DecidableEq, Repr

/-- The `PaymentInput` GraphQL input type. -/
structure PaymentInputT where
  method : String
  amount : ℚ
  transaction_id : Option String
  notes : Option String
deriving DecidableEq, Repr

/-- Mongo `update_one`: update the first document matching `p` with `f` and
report the matched count (0 or 1).  Every embedded update also `$set`s a fresh
`updated_at`, so the modified count reported by the driver coincides with the
matched count. -/
def updateOneBy {α : Type} (p : α → Bool) (f : α → α) : List α → List α × Nat
  | [] => ([], 0)
  | x :: xs =>
    if p x then (f x :: xs, 1)
    else
      let r := updateOneBy p f xs
      (x :: r.1, r.2)

/-- The `roomInventory` key filter `{hotel_id, room_type, date}`. -/
def invKeyMatches (h rt : String) (d : Int) (r : InventoryRow) : Bool :=
  r.hotel_id == h && r.room_type == rt && r.date == d

/-- Mongo `find_one` on `roomInventory` by its unique key. -/
def findInventory (led : Ledger) (h rt : String) (d : Int) : Option InventoryRow :=
  led.find? (invKeyMatches h rt d)

/-- Pricing lookup of `create_booking`: `db.rooms.find_one({hotel_id, room_type})`. -/
def findPricingRoom (rooms : List RoomDoc) (h rt : String) : Option RoomDoc :=
  rooms.find? (fun r => r.hotel_id == h && r.room_type == rt)

/-- The `$inc` document of the reservation update: `available_rooms -= n`,
`locked_rooms += n`, plus the `$set` of `updated_at`. -/
def reserveUpd (n now : Int) (x : InventoryRow) : InventoryRow :=
  { x with available_rooms := x.available_rooms - n,
           locked_rooms := x.locked_rooms + n,
           updated_at := now }

/-- The `$inc` document of the assignment update: `locked_rooms -= k`,
`booked_rooms += k`, plus the `$set` of `updated_at`. -/
def confirmUpd (k now : Int) (x : InventoryRow) : InventoryRow :=
  { x with locked_rooms := x.locked_rooms - k,
           booked_rooms := x.booked_rooms + k,
           updated_at := now }

/-- The `$inc` document of the cancellation release: the source counter
(`locked_rooms` for the CONFIRMED branch, `booked_rooms` for the CHECKED_IN
branch) is debited by `k` and `available_rooms` is credited by `k`; no
`updated_at` is set. -/
def releaseUpd (k : Int) (fromLocked : Bool) (x : InventoryRow) : InventoryRow :=
  if fromLocked then
    { x with locked_rooms := x.locked_rooms - k,
             available_rooms := x.available_rooms + k }
  else
    { x with booked_rooms := x.booked_rooms - k,
             available_rooms := x.available_rooms + k }

/-- The `$inc` document of the inventory seed update. -/
def seedUpd (delta_total delta_available now : Int) (x : InventoryRow) :
    InventoryRow :=
  { x with total_rooms := x.total_rooms + delta_total,
           available_rooms := x.available_rooms + delta_available,
           updated_at := now }

/-- One night of step 1 of `create_booking` (lines 39-65): pre-read the row,
reject if absent or short, then the conditional update guarded by
`available_rooms >= number_of_rooms` decrementing `available_rooms` and
incrementing `locked_rooms`; a zero modified count also rejects. -/
def reserveNight (led : Ledger) (h rt : String) (date n now : Int) :
    Ledger × Option BookingError :=
  match findInventory led h rt date with
  | none => (led, some (.inventoryNotConfigured rt date))
  | some row =>
    if row.available_rooms < n then (led, some (.notEnoughRooms rt date))
    else
      if (updateOneBy
            (fun x => invKeyMatches h rt date x && decide (n ≤ x.available_rooms))
            (reserveUpd n now) led).2 == 0 then
        ((updateOneBy
            (fun x => invKeyMatches h rt date x && decide (n ≤ x.available_rooms))
            (reserveUpd n now) led).1, some (.lockFailed rt date))
      else
        ((updateOneBy
            (fun x => invKeyMatches h rt date x && decide (n ≤ x.available_rooms))
            (reserveUpd n now) led).1, none)

/-- The `for day_offset in range(nights)` reservation loop of `create_booking`
for one room-type group. -/
def reserveLoop (h rt : String) (ci n now : Int) :
    Ledger → List Nat → Ledger × Option BookingError
  | led, [] => (led, none)
  | led, d :: ds =>
    match reserveNight led h rt (ci + (d : Int)) n now with
    | (led', none) => reserveLoop h rt ci n now led' ds
    | (led', some e) => (led', some e)

/-- Step 1 of `create_booking` over the whole `room_type_bookings` list:
reserve every night of a group, then price the group and accumulate its
`base_amount`; any failure aborts with the partially mutated ledger. -/
def processRoomTypes (rooms : List RoomDoc) (h : String) (ci nights now : Int) :
    Ledger → ℚ → List RoomTypeBookingsInputT → Ledger × Except BookingError ℚ
  | led, acc, [] => (led, .ok acc)
  | led, acc, rtb :: rest =>
    match reserveLoop h rtb.room_type ci rtb.number_of_rooms now led
        (List.range nights.toNat) with
    | (led', some e) => (led', .error e)
    | (led', none) =>
      match findPricingRoom rooms h rtb.room_type with
      | none => (led', .error (.pricingNotConfigured rtb.room_type))
      | some rm =>
        processRoomTypes rooms h ci nights now led'
          (acc + rm.price_per_night * (nights : ℚ) * (rtb.number_of_rooms : ℚ)) rest

/-- `create_booking`: lock inventory per room type and night, price, then
insert the booking document with status CONFIRMED.  `newId` stands for the
inserted ObjectId, `now` for `datetime.utcnow()`. -/
def create_booking (s : DBState) (bd : BookingInputT) (newId : String) (now : Int) :
    DBState × Except BookingError BookingDoc :=
  let nights : Int := bd.check_out_date - bd.check_in_date
  match processRoomTypes s.rooms bd.hotel_id bd.check_in_date nights now
      s.roomInventory 0 bd.room_type_bookings with
  | (led', .error e) => ({ s with roomInventory := led' }, .error e)
  | (led', .ok total_base) =>
    let tax_amount := total_base * (1 / 10)
    let total_amount := total_base + tax_amount
    let doc : BookingDoc :=
      { id := newId
        hotel_id := bd.hotel_id
        room_type_bookings := bd.room_type_bookings.map
          (fun rtb => { room_type := rtb.room_type,
                        number_of_rooms := rtb.number_of_rooms,
                        room_ids := rtb.room_ids.getD [] })
        room_type_summary := none
        booking_number := "BK" ++ toString now
        guest := bd.guest
        booking_status := .confirmed
        payment_status := .pending
        booking_source := bd.booking_source
        check_in_date := bd.check_in_date
        check_out_date := bd.check_out_date
        number_of_guests := bd.number_of_guests
        rate_plan := bd.rate_plan
        tax_amount := tax_amount
        base_amount := total_base
        total_amount := total_amount
        payments := []
        room_ids := []
        check_in_time := none
        check_out_time := none
        special_requests := bd.special_requests
        created_at := now
        updated_at := now
        created_by := "system"
        updated_by := "system" }
    ({ s with roomInventory := led', bookings := s.bookings ++ [doc] }, .ok doc)

/-- Validation of one assignment group in `assign_rooms_to_booking`
(lines 162-183): look the group's room type up in the booking's
`room_type_summary` (a `KeyError` if that key is absent, as it is on every
document written by `create_booking`), require the submitted id count to
equal the reserved `number_of_rooms` (the `not summary` case also raises,
inside the error f-string), then require exactly `len(room_ids)` rooms of the
hotel to match the ids with the right type and status `available`. -/
def validateGroup (hotel_id : String) (summary : Option (List RoomTypeSummaryEntry))
    (rooms : List RoomDoc) (a : RoomAssignmentInputT) :
    Except BookingError (List RoomDoc) :=
  match summary with
  | none => .error .keyErrorRoomTypeSummary
  | some summ =>
    match summ.find? (fun s => s.room_type == a.room_type) with
    | none => .error (.roomCountMismatch a.room_type)
    | some sm =>
      if (a.room_ids.length : Int) != sm.number_of_rooms then
        .error (.roomCountMismatch a.room_type)
      else
        let valid := rooms.filter (fun r =>
          a.room_ids.contains r.id && r.hotel_id == hotel_id &&
          r.room_type == a.room_type && r.status == RoomStatus.available)
        if valid.length != a.room_ids.length then .error (.invalidRooms a.room_type)
        else .ok valid

/-- One night of step 1 of `assign_rooms_to_booking` (lines 189-203): the
conditional update guarded by `locked_rooms >= len(room_ids)` moving
`len(room_ids)` from `locked_rooms` to `booked_rooms`; a zero modified count
raises the possible-race error. -/
def confirmNight (led : Ledger) (h rt : String) (date k now : Int) :
    Ledger × Option BookingError :=
  if (updateOneBy
        (fun x => invKeyMatches h rt date x && decide (k ≤ x.locked_rooms))
        (confirmUpd k now) led).2 == 0 then
    ((updateOneBy
        (fun x => invKeyMatches h rt date x && decide (k ≤ x.locked_rooms))
        (confirmUpd k now) led).1, some (.inventoryRace rt date))
  else
    ((updateOneBy
        (fun x => invKeyMatches h rt date x && decide (k ≤ x.locked_rooms))
        (confirmUpd k now) led).1, none)

/-- The per-night loop of one assignment group. -/
def confirmLoop (h rt : String) (ci k now : Int) :
    Ledger → List Nat → Ledger × Option BookingError
  | led, [] => (led, none)
  | led, d :: ds =>
    match confirmNight led h rt (ci + (d : Int)) k now with
    | (led', none) => confirmLoop h rt ci k now led' ds
    | (led', some e) => (led', some e)

/-- The `for assignment in assignments` loop of `assign_rooms_to_booking`:
each group is validated and then immediately mutates the ledger for every
night, before the next group is examined; `acc` collects `all_room_ids`. -/
def assignLoop (hotel_id : String) (ci nights now : Int)
    (summary : Option (List RoomTypeSummaryEntry)) (rooms : List RoomDoc) :
    Ledger → List String → List RoomAssignmentInputT →
    Ledger × Except BookingError (List String)
  | led, acc, [] => (led, .ok acc)
  | led, acc, a :: rest =>
    match validateGroup hotel_id summary rooms a with
    | .error e => (led, .error e)
    | .ok valid =>
      match confirmLoop hotel_id a.room_type ci (a.room_ids.length : Int) now led
          (List.range nights.toNat) with
      | (led', some e) => (led', .error e)
      | (led', none) =>
        assignLoop hotel_id ci nights now summary rooms led'
          (acc ++ valid.map (fun r => r.id)) rest

/-- Mongo `update_many` on `rooms` setting `status` for every id in `ids`. -/
def setRoomsStatus (rooms : List RoomDoc) (ids : List String) (st : RoomStatus)
    (now : Int) : List RoomDoc :=
  rooms.map (fun r =>
    if ids.contains r.id then { r with status := st, updated_at := now } else r)

/-- `assign_rooms_to_booking`: fetch the booking, require CONFIRMED, run the
per-group validate-and-mutate loop, then mark the collected rooms occupied,
store `room_ids` on the booking, set status CHECKED_IN and return the
re-fetched document. -/
def assign_rooms_to_booking (s : DBState) (booking_id : String)
    (assignments : List RoomAssignmentInputT) (now : Int) :
    DBState × Except BookingError BookingDoc :=
  match s.bookings.find? (fun b => b.id == booking_id) with
  | none => (s, .error .bookingNotFound)
  | some booking =>
    if booking.booking_status != BookingStatus.confirmed then
      (s, .error .notConfirmed)
    else
      let nights := booking.check_out_date - booking.check_in_date
      match assignLoop booking.hotel_id booking.check_in_date nights now
          booking.room_type_summary s.rooms s.roomInventory [] assignments with
      | (led', .error e) => ({ s with roomInventory := led' }, .error e)
      | (led', .ok all_room_ids) =>
        let rooms' := setRoomsStatus s.rooms all_room_ids .occupied now
        let bookings' := (updateOneBy (fun b => b.id == booking_id)
          (fun b => { b with room_ids := all_room_ids,
                             booking_status := .checkedIn,
                             check_in_time := some now,
                             updated_at := now }) s.bookings).1
        let s' : DBState :=
          { s with roomInventory := led', rooms := rooms', bookings := bookings' }
        match s'.bookings.find? (fun b => b.id == booking_id) with
        | some b => (s', .ok b)
        | none => (s', .error .bookingNotFound)

/-- The ledger update of one (night, room-type) pair of `cancel_booking`
(lines 257-271): an unguarded `$inc` on the keyed row, crediting
`available_rooms` and debiting `locked_rooms` (CONFIRMED branch,
`fromLocked = true`) or `booked_rooms` (CHECKED_IN branch).  No `updated_at`
is set and the result is not checked. -/
def cancelReleaseNight (led : Ledger) (h rt : String) (date k : Int)
    (fromLocked : Bool) : Ledger :=
  (updateOneBy (invKeyMatches h rt date) (releaseUpd k fromLocked) led).1

/-- The nested `for offset / for rt` release loop of `cancel_booking`. -/
def cancelReleaseLoop (h : String) (ci : Int)
    (rtbs : List StoredRoomTypeBooking) (fromLocked : Bool) :
    Ledger → List Nat → Ledger
  | led, [] => led
  | led, d :: ds =>
    let led' := rtbs.foldl
      (fun l rtb =>
        cancelReleaseNight l h rtb.room_type (ci + (d : Int)) rtb.number_of_rooms
          fromLocked) led
    cancelReleaseLoop h ci rtbs fromLocked led' ds

/-- `cancel_booking`: fetch the booking, require CONFIRMED or CHECKED_IN,
release every night of the stay back to `available_rooms` (from
`locked_rooms` or `booked_rooms` according to the status), free any assigned
rooms, and set status CANCELLED. -/
def cancel_booking (s : DBState) (booking_id : String) (now : Int) :
    DBState × Except BookingError Bool :=
  match s.bookings.find? (fun b => b.id == booking_id) with
  | none => (s, .error .bookingNotFound)
  | some booking =>
    if booking.booking_status != BookingStatus.confirmed &&
       booking.booking_status != BookingStatus.checkedIn then
      (s, .error .notCancellable)
    else
      let nights := booking.check_out_date - booking.check_in_date
      let fromLocked := booking.booking_status == BookingStatus.confirmed
      let led' := cancelReleaseLoop booking.hotel_id booking.check_in_date
        booking.room_type_bookings fromLocked s.roomInventory
        (List.range nights.toNat)
      let rooms' :=
        if booking.room_ids.isEmpty then s.rooms
        else setRoomsStatus s.rooms booking.room_ids .available now
      let bookings' := (updateOneBy (fun b => b.id == booking_id)
        (fun b => { b with booking_status := .cancelled, updated_at := now })
        s.bookings).1
      ({ s with roomInventory := led', rooms := rooms', bookings := bookings' },
       .ok true)

/-- `checkout_booking`: fetch the booking, require CHECKED_IN, free the
assigned rooms and set status CHECKED_OUT; the ledger is not touched. -/
def checkout_booking (s : DBState) (booking_id : String) (now : Int) :
    DBState × Except BookingError Bool :=
  match s.bookings.find? (fun b => b.id == booking_id) with
  | none => (s, .error .bookingNotFound)
  | some booking =>
    if booking.booking_status != BookingStatus.checkedIn then
      (s, .error .notCheckedIn)
    else
      let rooms' :=
        if booking.room_ids.isEmpty then s.rooms
        else setRoomsStatus s.rooms booking.room_ids .available now
      let bookings' := (updateOneBy (fun b => b.id == booking_id)
        (fun b => { b with booking_status := .checkedOut,
                           check_out_time := some now,
                           updated_at := now }) s.bookings).1
      ({ s with rooms := rooms', bookings := bookings' }, .ok true)

/-- Modelled from the spec: `_find_booking`, called by `add_payment` and
`add_room_charge`, is not defined under `src/` (only its call sites are).
Per the call-site comment ("Find booking by ID or booking number") and §6's
contract that `addPayment(bookingId, ...)` operates on an existing booking,
it returns the first booking whose id or booking number equals the key. -/
def findBookingHelper (bs : List BookingDoc) (key : String) : Option BookingDoc :=
  bs.find? (fun b => b.id == key || b.booking_number == key)

/-- The payment record document built by `add_payment` (status is always
"completed", the transaction date is the current time). -/
def paymentRecord (p : PaymentInputT) (now : Int) : Payment :=
  { method := p.method, amount := p.amount, transaction_id := p.transaction_id,
    transaction_date := now, status := "completed", notes := p.notes }

/-- The payment-status recomputation of `add_payment`: `total_paid` is the
sum of the stored payment amounts plus the new amount; at or above
`total_amount` it is PAID, positive but short it is PARTIAL, else PENDING. -/
def paymentStatusOf (booking : BookingDoc) (amount : ℚ) : PaymentStatus :=
  if booking.total_amount ≤
      (booking.payments.map (fun q => q.amount)).sum + amount then
    PaymentStatus.paid
  else if 0 < (booking.payments.map (fun q => q.amount)).sum + amount then
    PaymentStatus.partiallyPaid
  else PaymentStatus.pending

/-- The `$push` / `$set` document of `add_payment`. -/
def addPaymentUpd (p : PaymentInputT) (now : Int) (st : PaymentStatus)
    (x : BookingDoc) : BookingDoc :=
  { x with payments := x.payments ++ [paymentRecord p now],
           payment_status := st, updated_at := now, updated_by := "system" }

/-- `add_payment`: find the booking (no status check), build the payment
record, recompute the payment status from the sum of all payment amounts
including the new one versus `total_amount`, push the record and set the
status, then return the re-fetched document. -/
def add_payment (s : DBState) (booking_id : String) (p : PaymentInputT)
    (now : Int) : DBState × Except BookingError BookingDoc :=
  match findBookingHelper s.bookings booking_id with
  | none => (s, .error .bookingNotFound)
  | some booking =>
    let bookings' := (updateOneBy (fun b => b.id == booking.id)
      (addPaymentUpd p now (paymentStatusOf booking p.amount)) s.bookings).1
    let s' : DBState := { s with bookings := bookings' }
    match s'.bookings.find? (fun b => b.id == booking.id) with
    | some b => (s', .ok b)
    | none => (s', .error .bookingNotFound)

/-- `upsert_room_inventory_for_date` (room_mutations.py lines 33-65): `$inc`
the keyed row's `total_rooms` by `delta_total` and `available_rooms` by
`delta_available`; when no row matched, insert a fresh row with those counts
and zero `booked_rooms` and `locked_rooms`. -/
def upsert_room_inventory_for_date (led : Ledger) (h rt : String)
    (date delta_total delta_available now : Int) : Ledger :=
  if (updateOneBy (invKeyMatches h rt date)
        (seedUpd delta_total delta_available now) led).2 == 0 then
    (updateOneBy (invKeyMatches h rt date)
        (seedUpd delta_total delta_available now) led).1 ++
      [{ hotel_id := h, room_type := rt, date := date,
         total_rooms := delta_total, booked_rooms := 0, locked_rooms := 0,
         available_rooms := delta_available, updated_at := now }]
  else
    (updateOneBy (invKeyMatches h rt date)
        (seedUpd delta_total delta_available now) led).1

/-- Modelled from the spec: `update_room_inventory`, called by `delete_room`
with deltas `(-1, -1)`, is not defined under `src/` (it appears only in
commented-out code and at call sites).  Per §4.4 — "On room soft-deletion:
one `seed(..., -1, -1)` for the *current* date's row only" — it applies the
given deltas to the ledger row for the current date, with the seed semantics
of `upsert_room_inventory_for_date`. -/
def update_room_inventory (led : Ledger) (h rt : String)
    (today delta_total delta_available now : Int) : Ledger :=
  upsert_room_inventory_for_date led h rt today delta_total delta_available now

/-- The room soft-delete `$set` document of `delete_room`. -/
def softDeleteUpd (now : Int) (x : RoomDoc) : RoomDoc :=
  { x with is_active := false, status := .outOfOrder, updated_at := now }

/-- `delete_room`: fetch the room (the subsequent active-booking query
filters on `room_id` and `status`, fields no booking document written by this
codebase carries, so it never matches), soft-delete the room by setting
`is_active` false and status OUT_OF_ORDER, decrement the hotel's room count,
and apply the single `(-1, -1)` inventory seed for the current date. -/
def delete_room (s : DBState) (id : String) (today now : Int) :
    DBState × Except BookingError Bool :=
  match s.rooms.find? (fun r => r.id == id) with
  | none => (s, .error .roomNotFound)
  | some room =>
    let r := updateOneBy (fun x => x.id == id) (softDeleteUpd now) s.rooms
    let hotels' := (updateOneBy (fun h => h.id == room.hotel_id)
      (fun h => { h with room_count := h.room_count - 1, updated_at := now })
      s.hotels).1
    let led' := update_room_inventory s.roomInventory room.hotel_id
      room.room_type today (-1) (-1) now
    ({ s with rooms := r.1, hotels := hotels', roomInventory := led' },
     .ok (decide (0 < r.2)))

/-- Per-row conservation: the ledger invariant of spec §3 and §8. -/
abbrev rowConserved (r : InventoryRow) : Prop :=
  r.total_rooms = r.available_rooms + r.locked_rooms + r.booked_rooms

/-- Whole-ledger conservation. -/
abbrev ledgerConserved (led : Ledger) : Prop := ∀ r ∈ led, rowConserved r

lemma updateOneBy_of_find?_none {α : Type} (p : α → Bool) (f : α → α) :
    ∀ l : List α, l.find? p = none → updateOneBy p f l = (l, 0) := by
  intro l h
  induction l with
  | nil => rfl
  | cons x xs ih =>
    rw [List.find?_cons] at h
    cases hp : p x with
    | true => simp [hp] at h
    | false =>
      simp only [hp] at h
      simp [updateOneBy, hp, ih h]

lemma updateOneBy_count_of_find? {α : Type} (p : α → Bool) (f : α → α) :
    ∀ (l : List α) (x : α), l.find? p = some x → (updateOneBy p f l).2 = 1 := by
  intro l
  induction l with
  | nil => intro x h; simp [List.find?] at h
  | cons y ys ih =>
    intro x h
    rw [List.find?_cons] at h
    cases hp : p y with
    | true => simp [updateOneBy, hp]
    | false =>
      simp only [hp] at h
      simp only [updateOneBy, hp, Bool.false_eq_true, if_false]
      exact ih x h

lemma find?_updateOneBy_self {α : Type} (p : α → Bool) (f : α → α) :
    ∀ (l : List α) (x : α), l.find? p = some x → p (f x) = true →
      ((updateOneBy p f l).1).find? p = some (f x) := by
  intro l
  induction l with
  | nil => intro x h; simp [List.find?] at h
  | cons y ys ih =>
    intro x h hf
    rw [List.find?_cons] at h
    cases hp : p y with
    | true =>
      simp only [hp] at h
      cases h
      simp [updateOneBy, hp, List.find?_cons, hf]
    | false =>
      simp only [hp] at h
      simp only [updateOneBy, hp, Bool.false_eq_true, if_false]
      rw [List.find?_cons_of_neg _ (by simp [hp])]
      exact ih x h hf

lemma find?_updateOneBy_other {α : Type} (p q : α → Bool) (f : α → α)
    (h1 : ∀ x, p x = true → q x = false)
    (h2 : ∀ x, p x = true → q (f x) = false) :
    ∀ l : List α, ((updateOneBy p f l).1).find? q = l.find? q := by
  intro l
  induction l with
  | nil => rfl
  | cons y ys ih =>
    cases hp : p y with
    | true =>
      simp only [updateOneBy, hp, if_true]
      rw [List.find?_cons_of_neg _ (by simp [h2 y hp]), List.find?_cons_of_neg _ (by simp [h1 y hp])]
    | false =>
      simp only [updateOneBy, hp, Bool.false_eq_true, if_false]
      rw [List.find?_cons, List.find?_cons]
      cases hq : q y with
      | true => rfl
      | false => exact ih

lemma updateOneBy_guard_absorb {α : Type} (p g : α → Bool) (f : α → α) :
    ∀ (l : List α) (x : α), l.find? p = some x → g x = true →
      updateOneBy (fun y => p y && g y) f l = updateOneBy p f l := by
  intro l
  induction l with
  | nil => intro x h; simp [List.find?] at h
  | cons y ys ih =>
    intro x h hg
    rw [List.find?_cons] at h
    cases hp : p y with
    | true =>
      simp only [hp] at h
      cases h
      simp [updateOneBy, hp, hg]
    | false =>
      simp only [hp] at h
      simp [updateOneBy, hp, ih x h hg]

lemma mem_updateOneBy {α : Type} (p : α → Bool) (f : α → α) :
    ∀ (l : List α) (x : α), x ∈ (updateOneBy p f l).1 →
      x ∈ l ∨ ∃ y, y ∈ l ∧ x = f y := by
  intro l
  induction l with
  | nil => intro x h; simp [updateOneBy] at h
  | cons y ys ih =>
    intro x h
    cases hp : p y with
    | true =>
      simp only [updateOneBy, hp, if_true] at h
      rcases List.mem_cons.mp h with h | h
      · exact Or.inr ⟨y, List.mem_cons_self y ys, h⟩
      · exact Or.inl (List.mem_cons_of_mem y h)
    | false =>
      simp only [updateOneBy, hp, Bool.false_eq_true, if_false] at h
      rcases List.mem_cons.mp h with h | h
      · exact Or.inl (h ▸ List.mem_cons_self y ys)
      · rcases ih x h with h' | ⟨z, hz, hxz⟩
        · exact Or.inl (List.mem_cons_of_mem y h')
        · exact Or.inr ⟨z, List.mem_cons_of_mem y hz, hxz⟩

lemma ledgerConserved_updateOneBy (p : InventoryRow → Bool)
    (f : InventoryRow → InventoryRow)
    (hf : ∀ x, rowConserved x → rowConserved (f x)) (led : Ledger)
    (h : ledgerConserved led) : ledgerConserved (updateOneBy p f led).1 := by
  intro r hr
  rcases mem_updateOneBy p f led r hr with h' | ⟨y, hy, rfl⟩
  · exact h r h'
  · exact hf y (h y hy)

lemma invKey_reserveUpd (h rt : String) (d n now : Int) (x : InventoryRow) :
    invKeyMatches h rt d (reserveUpd n now x) = invKeyMatches h rt d x := rfl

lemma invKey_confirmUpd (h rt : String) (d k now : Int) (x : InventoryRow) :
    invKeyMatches h rt d (confirmUpd k now x) = invKeyMatches h rt d x := rfl

lemma invKey_releaseUpd (h rt : String) (d k : Int) (b : Bool) (x : InventoryRow) :
    invKeyMatches h rt d (releaseUpd k b x) = invKeyMatches h rt d x := by
  cases b <;> rfl

lemma invKey_seedUpd (h rt : String) (d dt da now : Int) (x : InventoryRow) :
    invKeyMatches h rt d (seedUpd dt da now x) = invKeyMatches h rt d x := rfl

lemma invKey_ne_false (h rt h' rt' : String) (d d' : Int) (x : InventoryRow)
    (hx : invKeyMatches h rt d x = true)
    (hne : ¬(h' = h ∧ rt' = rt ∧ d' = d)) :
    invKeyMatches h' rt' d' x = false := by
  rw [Bool.eq_false_iff]
  intro hq
  apply hne
  simp only [invKeyMatches, Bool.and_eq_true, beq_iff_eq] at hx hq
  obtain ⟨⟨e1, e2⟩, e3⟩ := hx
  obtain ⟨⟨f1, f2⟩, f3⟩ := hq
  refine ⟨?_, ?_, ?_⟩
  · rw [← f1, e1]
  · rw [← f2, e2]
  · rw [← f3, e3]

lemma reserveNight_absent (led : Ledger) (h rt : String) (d n now : Int)
    (hfind : findInventory led h rt d = none) :
    reserveNight led h rt d n now = (led, some (.inventoryNotConfigured rt d)) := by
  unfold reserveNight
  rw [hfind]

lemma reserveNight_short (led : Ledger) (h rt : String) (d n now : Int)
    (row : InventoryRow) (hfind : findInventory led h rt d = some row)
    (hlt : row.available_rooms < n) :
    reserveNight led h rt d n now = (led, some (.notEnoughRooms rt d)) := by
  simp only [reserveNight, hfind, if_pos hlt]

lemma reserveNight_found (led : Ledger) (h rt : String) (d n now : Int)
    (row : InventoryRow) (hfind : findInventory led h rt d = some row)
    (hge : n ≤ row.available_rooms) :
    reserveNight led h rt d n now =
      ((updateOneBy (invKeyMatches h rt d) (reserveUpd n now) led).1, none) := by
  have habs := updateOneBy_guard_absorb (invKeyMatches h rt d)
    (fun x => decide (n ≤ x.available_rooms)) (reserveUpd n now) led row hfind
    (decide_eq_true hge)
  have hcnt := updateOneBy_count_of_find? (invKeyMatches h rt d)
    (reserveUpd n now) led row hfind
  simp only [reserveNight, hfind, if_neg (not_lt.mpr hge), habs, hcnt]
  simp

lemma findInventory_after_reserve (led : Ledger) (h rt : String) (d n now : Int)
    (row : InventoryRow) (hfind : findInventory led h rt d = some row)
    (hge : n ≤ row.available_rooms) :
    findInventory (reserveNight led h rt d n now).1 h rt d =
      some (reserveUpd n now row) := by
  rw [reserveNight_found led h rt d n now row hfind hge]
  exact find?_updateOneBy_self (invKeyMatches h rt d) (reserveUpd n now) led row
    hfind (by rw [invKey_reserveUpd]; exact List.find?_some hfind)

lemma findInventory_reserveNight_other (led : Ledger) (h rt h' rt' : String)
    (d n now d' : Int) (hne : ¬(h' = h ∧ rt' = rt ∧ d' = d)) :
    findInventory (reserveNight led h rt d n now).1 h' rt' d' =
      findInventory led h' rt' d' := by
  cases hfind : findInventory led h rt d with
  | none => rw [reserveNight_absent led h rt d n now hfind]
  | some row =>
    by_cases hlt : row.available_rooms < n
    · rw [reserveNight_short led h rt d n now row hfind hlt]
    · rw [reserveNight_found led h rt d n now row hfind (not_lt.mp hlt)]
      exact find?_updateOneBy_other (invKeyMatches h rt d)
        (invKeyMatches h' rt' d') (reserveUpd n now)
        (fun x hx => invKey_ne_false h rt h' rt' d d' x hx hne)
        (fun x hx => by
          rw [invKey_reserveUpd]
          exact invKey_ne_false h rt h' rt' d d' x hx hne) led

lemma reserveNight_fail (led : Ledger) (h rt : String) (d n now : Int)
    (e : BookingError) (hf : (reserveNight led h rt d n now).2 = some e) :
    (reserveNight led h rt d n now).1 = led ∧
      e.isInsufficientInventory = true := by
  cases hfind : findInventory led h rt d with
  | none =>
    rw [reserveNight_absent led h rt d n now hfind] at hf ⊢
    cases hf
    exact ⟨rfl, rfl⟩
  | some row =>
    by_cases hlt : row.available_rooms < n
    · rw [reserveNight_short led h rt d n now row hfind hlt] at hf ⊢
      cases hf
      exact ⟨rfl, rfl⟩
    · rw [reserveNight_found led h rt d n now row hfind (not_lt.mp hlt)] at hf
      cases hf

lemma reserveNight_ok_iff (led : Ledger) (h rt : String) (d n now : Int) :
    (reserveNight led h rt d n now).2 = none ↔
      ∃ row, findInventory led h rt d = some row ∧ n ≤ row.available_rooms := by
  constructor
  · intro hok
    cases hfind : findInventory led h rt d with
    | none => rw [reserveNight_absent led h rt d n now hfind] at hok; cases hok
    | some row =>
      by_cases hlt : row.available_rooms < n
      · rw [reserveNight_short led h rt d n now row hfind hlt] at hok; cases hok
      · exact ⟨row, rfl, not_lt.mp hlt⟩
  · rintro ⟨row, hfind, hge⟩
    rw [reserveNight_found led h rt d n now row hfind hge]

lemma rowConserved_reserveUpd (n now : Int) (x : InventoryRow)
    (hx : rowConserved x) : rowConserved (reserveUpd n now x) := by
  simp only [rowConserved, reserveUpd] at hx ⊢
  omega

lemma rowConserved_confirmUpd (k now : Int) (x : InventoryRow)
    (hx : rowConserved x) : rowConserved (confirmUpd k now x) := by
  simp only [rowConserved, confirmUpd] at hx ⊢
  omega

lemma rowConserved_releaseUpd (k : Int) (b : Bool) (x : InventoryRow)
    (hx : rowConserved x) : rowConserved (releaseUpd k b x) := by
  cases b <;> simp only [rowConserved, releaseUpd] at hx ⊢ <;> simp <;> omega

lemma rowConserved_seedUpd (dt da now : Int) (hda : dt = da) (x : InventoryRow)
    (hx : rowConserved x) : rowConserved (seedUpd dt da now x) := by
  simp only [rowConserved, seedUpd] at hx ⊢
  omega

lemma ledgerConserved_reserveNight (led : Ledger) (h rt : String) (d n now : Int)
    (hc : ledgerConserved led) :
    ledgerConserved (reserveNight led h rt d n now).1 := by
  cases hfind : findInventory led h rt d with
  | none => rw [reserveNight_absent led h rt d n now hfind]; exact hc
  | some row =>
    by_cases hlt : row.available_rooms < n
    · rw [reserveNight_short led h rt d n now row hfind hlt]; exact hc
    · rw [reserveNight_found led h rt d n now row hfind (not_lt.mp hlt)]
      exact ledgerConserved_updateOneBy _ _ (rowConserved_reserveUpd n now) led hc

lemma ledgerConserved_reserveLoop (h rt : String) (ci n now : Int) :
    ∀ (ds : List Nat) (led : Ledger), ledgerConserved led →
      ledgerConserved (reserveLoop h rt ci n now led ds).1 := by
  intro ds
  induction ds with
  | nil => intro led hc; exact hc
  | cons d ds ih =>
    intro led hc
    have hcn := ledgerConserved_reserveNight led h rt (ci + (d : Int)) n now hc
    rcases hr : reserveNight led h rt (ci + (d : Int)) n now with ⟨led', res⟩
    rw [hr] at hcn
    cases res with
    | none => simp only [reserveLoop, hr]; exact ih led' hcn
    | some e => simp only [reserveLoop, hr]; exact hcn

lemma ledgerConserved_processRoomTypes (rooms : List RoomDoc) (h : String)
    (ci nights now : Int) :
    ∀ (rtbs : List RoomTypeBookingsInputT) (led : Ledger) (acc : ℚ),
      ledgerConserved led →
      ledgerConserved (processRoomTypes rooms h ci nights now led acc rtbs).1 := by
  intro rtbs
  induction rtbs with
  | nil => intro led acc hc; exact hc
  | cons rtb rest ih =>
    intro led acc hc
    have hcl := ledgerConserved_reserveLoop h rtb.room_type ci rtb.number_of_rooms
      now (List.range nights.toNat) led hc
    rcases hr : reserveLoop h rtb.room_type ci rtb.number_of_rooms now led
        (List.range nights.toNat) with ⟨led', res⟩
    rw [hr] at hcl
    cases res with
    | some e => simp only [processRoomTypes, hr]; exact hcl
    | none =>
      cases hp : findPricingRoom rooms h rtb.room_type with
      | none => simp only [processRoomTypes, hr, hp]; exact hcl
      | some rm => simp only [processRoomTypes, hr, hp]; exact ih led' _ hcl

lemma ledgerConserved_create_booking (s : DBState) (bd : BookingInputT)
    (newId : String) (now : Int) (hc : ledgerConserved s.roomInventory) :
    ledgerConserved (create_booking s bd newId now).1.roomInventory := by
  have h := ledgerConserved_processRoomTypes s.rooms bd.hotel_id bd.check_in_date
    (bd.check_out_date - bd.check_in_date) now bd.room_type_bookings
    s.roomInventory 0 hc
  rcases hp : processRoomTypes s.rooms bd.hotel_id bd.check_in_date
      (bd.check_out_date - bd.check_in_date) now s.roomInventory 0
      bd.room_type_bookings with ⟨led', res⟩
  rw [hp] at h
  cases res <;> simp only [create_booking, hp] <;> exact h

lemma confirmNight_fst (led : Ledger) (h rt : String) (d k now : Int) :
    (confirmNight led h rt d k now).1 =
      (updateOneBy (fun x => invKeyMatches h rt d x && decide (k ≤ x.locked_rooms))
        (confirmUpd k now) led).1 := by
  unfold confirmNight
  split <;> rfl

lemma ledgerConserved_confirmNight (led : Ledger) (h rt : String) (d k now : Int)
    (hc : ledgerConserved led) :
    ledgerConserved (confirmNight led h rt d k now).1 := by
  rw [confirmNight_fst]
  exact ledgerConserved_updateOneBy _ _ (rowConserved_confirmUpd k now) led hc

lemma ledgerConserved_confirmLoop (h rt : String) (ci k now : Int) :
    ∀ (ds : List Nat) (led : Ledger), ledgerConserved led →
      ledgerConserved (confirmLoop h rt ci k now led ds).1 := by
  intro ds
  induction ds with
  | nil => intro led hc; exact hc
  | cons d ds ih =>
    intro led hc
    have hcn := ledgerConserved_confirmNight led h rt (ci + (d : Int)) k now hc
    rcases hr : confirmNight led h rt (ci + (d : Int)) k now with ⟨led', res⟩
    rw [hr] at hcn
    cases res with
    | none => simp only [confirmLoop, hr]; exact ih led' hcn
    | some e => simp only [confirmLoop, hr]; exact hcn

lemma ledgerConserved_assignLoop (hid : String) (ci nights now : Int)
    (summary : Option (List RoomTypeSummaryEntry)) (rooms : List RoomDoc) :
    ∀ (asg : List RoomAssignmentInputT) (led : Ledger) (acc : List String),
      ledgerConserved led →
      ledgerConserved (assignLoop hid ci nights now summary rooms led acc asg).1 := by
  intro asg
  induction asg with
  | nil => intro led acc hc; exact hc
  | cons a rest ih =>
    intro led acc hc
    cases hv : validateGroup hid summary rooms a with
    | error e => simp only [assignLoop, hv]; exact hc
    | ok valid =>
      have hcl := ledgerConserved_confirmLoop hid a.room_type ci
        (a.room_ids.length : Int) now (List.range nights.toNat) led hc
      rcases hr : confirmLoop hid a.room_type ci (a.room_ids.length : Int) now led
          (List.range nights.toNat) with ⟨led', res⟩
      rw [hr] at hcl
      cases res with
      | some e => simp only [assignLoop, hv, hr]; exact hcl
      | none => simp only [assignLoop, hv, hr]; exact ih led' _ hcl

lemma ledgerConserved_assign_rooms (s : DBState) (bid : String)
    (asg : List RoomAssignmentInputT) (now : Int)
    (hc : ledgerConserved s.roomInventory) :
    ledgerConserved (assign_rooms_to_booking s bid asg now).1.roomInventory := by
  unfold assign_rooms_to_booking
  split
  · exact hc
  next booking hfound =>
    split
    · exact hc
    next hst =>
      have h := ledgerConserved_assignLoop booking.hotel_id booking.check_in_date
        (booking.check_out_date - booking.check_in_date) now
        booking.room_type_summary s.rooms asg s.roomInventory [] hc
      rcases hr : assignLoop booking.hotel_id booking.check_in_date
          (booking.check_out_date - booking.check_in_date) now
          booking.room_type_summary s.rooms s.roomInventory [] asg with ⟨led', res⟩
      rw [hr] at h
      cases res with
      | error e => simp only [hr]; exact h
      | ok ids =>
        simp only [hr]
        split <;> exact h

lemma ledgerConserved_cancelReleaseNight (led : Ledger) (h rt : String)
    (d k : Int) (b : Bool) (hc : ledgerConserved led) :
    ledgerConserved (cancelReleaseNight led h rt d k b) := by
  unfold cancelReleaseNight
  exact ledgerConserved_updateOneBy _ _ (rowConserved_releaseUpd k b) led hc

lemma ledgerConserved_releaseFold (h : String) (d : Int) (b : Bool) :
    ∀ (rtbs : List StoredRoomTypeBooking) (led : Ledger), ledgerConserved led →
      ledgerConserved (rtbs.foldl
        (fun l rtb => cancelReleaseNight l h rtb.room_type d rtb.number_of_rooms b)
        led) := by
  intro rtbs
  induction rtbs with
  | nil => intro led hc; exact hc
  | cons rtb rest ih =>
    intro led hc
    simp only [List.foldl_cons]
    exact ih _ (ledgerConserved_cancelReleaseNight led h rtb.room_type d
      rtb.number_of_rooms b hc)

lemma ledgerConserved_cancelReleaseLoop (h : String) (ci : Int)
    (rtbs : List StoredRoomTypeBooking) (b : Bool) :
    ∀ (ds : List Nat) (led : Ledger), ledgerConserved led →
      ledgerConserved (cancelReleaseLoop h ci rtbs b led ds) := by
  intro ds
  induction ds with
  | nil => intro led hc; exact hc
  | cons d rest ih =>
    intro led hc
    simp only [cancelReleaseLoop]
    exact ih _ (ledgerConserved_releaseFold h (ci + (d : Int)) b rtbs led hc)

lemma ledgerConserved_cancel_booking (s : DBState) (bid : String) (now : Int)
    (hc : ledgerConserved s.roomInventory) :
    ledgerConserved (cancel_booking s bid now).1.roomInventory := by
  unfold cancel_booking
  split
  · exact hc
  next booking hfound =>
    split
    · exact hc
    · exact ledgerConserved_cancelReleaseLoop booking.hotel_id
        booking.check_in_date booking.room_type_bookings _
        (List.range (booking.check_out_date - booking.check_in_date).toNat)
        s.roomInventory hc

lemma ledgerConserved_upsert (led : Ledger) (h rt : String)
    (date dt da now : Int) (hda : dt = da) (hc : ledgerConserved led) :
    ledgerConserved (upsert_room_inventory_for_date led h rt date dt da now) := by
  unfold upsert_room_inventory_for_date
  have hupd := ledgerConserved_updateOneBy (invKeyMatches h rt date) _
    (rowConserved_seedUpd dt da now hda) led hc
  split
  · intro r hr
    rcases List.mem_append.mp hr with h' | h'
    · exact hupd r h'
    · rcases List.mem_singleton.mp h' with rfl
      simp only [rowConserved]
      omega
  · exact hupd

lemma reserveLoop_cons_fail (h rt : String) (ci n now : Int) (led : Ledger)
    (d : Nat) (ds : List Nat) (e : BookingError)
    (hf : (reserveNight led h rt (ci + (d : Int)) n now).2 = some e) :
    reserveLoop h rt ci n now led (d :: ds) =
      ((reserveNight led h rt (ci + (d : Int)) n now).1, some e) := by
  rcases hr : reserveNight led h rt (ci + (d : Int)) n now with ⟨led', res⟩
  rw [hr] at hf
  simp only at hf
  subst hf
  simp only [reserveLoop, hr]

lemma processRoomTypes_head_fail (rooms : List RoomDoc) (h : String)
    (ci nights now : Int) (led led₂ : Ledger) (acc : ℚ)
    (rtb : RoomTypeBookingsInputT) (rest : List RoomTypeBookingsInputT)
    (e : BookingError)
    (hf : reserveLoop h rtb.room_type ci rtb.number_of_rooms now led
        (List.range nights.toNat) = (led₂, some e)) :
    processRoomTypes rooms h ci nights now led acc (rtb :: rest) =
      (led₂, .error e) := by
  simp only [processRoomTypes, hf]

lemma create_booking_error_of_process (s : DBState) (bd : BookingInputT)
    (newId : String) (now : Int) (led₂ : Ledger) (e : BookingError)
    (hf : processRoomTypes s.rooms bd.hotel_id bd.check_in_date
        (bd.check_out_date - bd.check_in_date) now s.roomInventory 0
        bd.room_type_bookings = (led₂, .error e)) :
    create_booking s bd newId now = ({ s with roomInventory := led₂ }, .error e) := by
  simp only [create_booking, hf]

/-- C1: in `create_booking`, a (hotel, room_type, date) night is reserved only
when the inventory row exists with `available_rooms >= number_of_rooms`; a
successful per-night reservation is the single conditional update that
decrements `available_rooms` by `n` and increments `locked_rooms` by `n` on
exactly that row (all other rows untouched); when the row is absent or the
guard fails the ledger is untouched, the error belongs to the spec's
InsufficientInventory family, and it propagates so that the whole creation
fails. -/
theorem c1_reserve_guarded_conditional_update :
    (∀ (led : Ledger) (h rt : String) (d n now : Int),
       (reserveNight led h rt d n now).2 = none ↔
         ∃ row, findInventory led h rt d = some row ∧
           n ≤ row.available_rooms) ∧
    (∀ (led : Ledger) (h rt : String) (d n now : Int) (row : InventoryRow),
       findInventory led h rt d = some row → n ≤ row.available_rooms →
       findInventory (reserveNight led h rt d n now).1 h rt d =
         some { row with available_rooms := row.available_rooms - n,
                         locked_rooms := row.locked_rooms + n,
                         updated_at := now }) ∧
    (∀ (led : Ledger) (h rt h' rt' : String) (d n now d' : Int),
       ¬(h' = h ∧ rt' = rt ∧ d' = d) →
       findInventory (reserveNight led h rt d n now).1 h' rt' d' =
         findInventory led h' rt' d') ∧
    (∀ (led : Ledger) (h rt : String) (d n now : Int) (e : BookingError),
       (reserveNight led h rt d n now).2 = some e →
       (reserveNight led h rt d n now).1 = led ∧
         e.isInsufficientInventory = true) ∧
    (∀ (rooms : List RoomDoc) (h : String) (ci nights now : Int)
       (led led₂ : Ledger) (acc : ℚ) (rtb : RoomTypeBookingsInputT)
       (rest : List RoomTypeBookingsInputT) (e : BookingError),
       reserveLoop h rtb.room_type ci rtb.number_of_rooms now led
           (List.range nights.toNat) = (led₂, some e) →
       processRoomTypes rooms h ci nights now led acc (rtb :: rest) =
         (led₂, .error e)) ∧
    (∀ (s : DBState) (bd : BookingInputT) (newId : String) (now : Int)
       (led₂ : Ledger) (e : BookingError),
       processRoomTypes s.rooms bd.hotel_id bd.check_in_date
           (bd.check_out_date - bd.check_in_date) now s.roomInventory 0
           bd.room_type_bookings = (led₂, .error e) →
       (create_booking s bd newId now).2 = .error e) := by
  refine ⟨reserveNight_ok_iff, ?_, ?_, reserveNight_fail, ?_, ?_⟩
  · intro led h rt d n now row hfind hge
    exact findInventory_after_reserve led h rt d n now row hfind hge
  · intro led h rt h' rt' d n now d' hne
    exact findInventory_reserveNight_other led h rt h' rt' d n now d' hne
  · intro rooms h ci nights now led led₂ acc rtb rest e hf
    exact processRoomTypes_head_fail rooms h ci nights now led led₂ acc rtb rest
      e hf
  · intro s bd newId now led₂ e hf
    rw [create_booking_error_of_process s bd newId now led₂ e hf]

/-- A concrete ledger row for the C1 witness. -/
def c1Row : InventoryRow :=
  { hotel_id := "h1", room_type := "deluxe", date := 0, total_rooms := 5,
    available_rooms := 3, locked_rooms := 1, booked_rooms := 1, updated_at := 0 }

/-- Witness for C1: reserving 2 deluxe rooms on a row with 3 available
succeeds and yields the decremented/incremented row. -/
theorem c1_witness :
    findInventory (reserveNight [c1Row] "h1" "deluxe" 0 2 9).1 "h1" "deluxe" 0 =
      some { c1Row with available_rooms := c1Row.available_rooms - 2,
                        locked_rooms := c1Row.locked_rooms + 2,
                        updated_at := 9 } :=
  c1_reserve_guarded_conditional_update.2.1 [c1Row] "h1" "deluxe" 0 2 9 c1Row
    (by decide) (by decide)

/-- C2: conservation — `total_rooms = available_rooms + locked_rooms +
booked_rooms` holds for every inventory row after each ledger-touching
operation (`create_booking`'s reservations, `assign_rooms_to_booking`'s
locked-to-booked moves, `cancel_booking`'s releases, and the per-date seed,
whose two call sites both pass equal deltas), whether the operation succeeds
or fails, provided it held before. -/
theorem c2_ledger_conservation :
    (∀ (s : DBState) (bd : BookingInputT) (newId : String) (now : Int),
       ledgerConserved s.roomInventory →
       ledgerConserved (create_booking s bd newId now).1.roomInventory) ∧
    (∀ (s : DBState) (bid : String) (asg : List RoomAssignmentInputT)
       (now : Int), ledgerConserved s.roomInventory →
       ledgerConserved (assign_rooms_to_booking s bid asg now).1.roomInventory) ∧
    (∀ (s : DBState) (bid : String) (now : Int),
       ledgerConserved s.roomInventory →
       ledgerConserved (cancel_booking s bid now).1.roomInventory) ∧
    (∀ (led : Ledger) (h rt : String) (date dt da now : Int), dt = da →
       ledgerConserved led →
       ledgerConserved (upsert_room_inventory_for_date led h rt date dt da now)) :=
  ⟨ledgerConserved_create_booking, ledgerConserved_assign_rooms,
   ledgerConserved_cancel_booking,
   fun led h rt date dt da now hda hc =>
     ledgerConserved_upsert led h rt date dt da now hda hc⟩

/-- A concrete conserved ledger row for the C2 witness. -/
def c2Row : InventoryRow :=
  { hotel_id := "h1", room_type := "suite", date := 4, total_rooms := 4,
    available_rooms := 2, locked_rooms := 1, booked_rooms := 1, updated_at := 0 }

/-- Witness for C2: seeding an existing conserved row with equal deltas
keeps the ledger conserved. -/
theorem c2_witness :
    ledgerConserved (upsert_room_inventory_for_date [c2Row] "h1" "suite" 4 1 1 7) :=
  c2_ledger_conservation.2.2.2 [c2Row] "h1" "suite" 4 1 1 7 rfl (by decide)

/-- Decidable equality on `Except`, needed to evaluate concrete outcomes. -/
instance {e a : Type} [DecidableEq e] [DecidableEq a] :
    DecidableEq (Except e a) := fun x y =>
  match x, y with
  | .error u, .error v =>
    if h : u = v then isTrue (by rw [h]) else
      isFalse (by intro hc; cases hc; exact h rfl)
  | .ok u, .ok v =>
    if h : u = v then isTrue (by rw [h]) else
      isFalse (by intro hc; cases hc; exact h rfl)
  | .error _, .ok _ => isFalse (by intro hc; cases hc)
  | .ok _, .error _ => isFalse (by intro hc; cases hc)

/-- A guest record used by the concrete scenarios. -/
def plainGuest : Guest :=
  { first_name := "Ada", last_name := "Guest", email := "a@x.io",
    phone := "1", city := none, country := none, id_type := none,
    id_number := none, special_requests := none, address := none }

/-- C3 scenario: only the first night of a two-night stay has an inventory
row. -/
def c3Row : InventoryRow :=
  { hotel_id := "h1", room_type := "deluxe", date := 0, total_rooms := 2,
    available_rooms := 2, locked_rooms := 0, booked_rooms := 0, updated_at := 0 }

/-- C3 scenario: the priced room used for the pricing lookup. -/
def c3PriceRoom : RoomDoc :=
  { id := "r1", hotel_id := "h1", room_number := "101", room_type := "deluxe",
    status := .available, price_per_night := 100, is_active := true,
    updated_at := 0 }

/-- C3 scenario: a two-night one-room booking request. -/
def c3Input : BookingInputT :=
  { hotel_id := "h1", guest := plainGuest, booking_source := "direct",
    check_in_date := 0, check_out_date := 2, number_of_guests := 1,
    rate_plan := none,
    room_type_bookings := [{ room_type := "deluxe", number_of_rooms := 1,
                             room_ids := none }],
    special_requests := none }

/-- C3 scenario: the initial database. -/
def c3State : DBState :=
  { bookings := [], rooms := [c3PriceRoom], roomInventory := [c3Row],
    hotels := [] }

/-- Counterexample to C3: this `create_booking` call fails on the second
night (no inventory row), yet the ledger it leaves behind differs from the
initial one — the first night's reservation is still in place, so a failed
creation does not leave the ledger unchanged. -/
theorem c3_counterexample :
    (create_booking c3State c3Input "b1" 5).2 =
      .error (.inventoryNotConfigured "deluxe" 1) ∧
    (create_booking c3State c3Input "b1" 5).1.roomInventory ≠
      c3State.roomInventory := by
  decide

/-- C3 amended: when `create_booking` fails on the second night of a
two-night request after the first night was reserved, the first night's
reservation is NOT released — the ledger returned with the error still
carries the decremented `available_rooms` and incremented `locked_rooms`;
no compensation is performed. -/
theorem c3_amended_no_compensation (s : DBState) (bd : BookingInputT)
    (newId : String) (now : Int) (rtb : RoomTypeBookingsInputT)
    (row : InventoryRow)
    (hrtbs : bd.room_type_bookings = [rtb])
    (hco : bd.check_out_date = bd.check_in_date + 2)
    (hrow : findInventory s.roomInventory bd.hotel_id rtb.room_type
      bd.check_in_date = some row)
    (hge : rtb.number_of_rooms ≤ row.available_rooms)
    (habsent : findInventory s.roomInventory bd.hotel_id rtb.room_type
      (bd.check_in_date + 1) = none) :
    (create_booking s bd newId now).2 =
      .error (.inventoryNotConfigured rtb.room_type (bd.check_in_date + 1)) ∧
    findInventory (create_booking s bd newId now).1.roomInventory bd.hotel_id
        rtb.room_type bd.check_in_date =
      some { row with
              available_rooms := row.available_rooms - rtb.number_of_rooms,
              locked_rooms := row.locked_rooms + rtb.number_of_rooms,
              updated_at := now } := by
  have hn : bd.check_out_date - bd.check_in_date = 2 := by omega
  have hrange : List.range (bd.check_out_date - bd.check_in_date).toNat =
      [0, 1] := by rw [hn]; rfl
  have h0 : reserveNight s.roomInventory bd.hotel_id rtb.room_type
      (bd.check_in_date + ((0 : Nat) : Int)) rtb.number_of_rooms now =
      ((updateOneBy (invKeyMatches bd.hotel_id rtb.room_type bd.check_in_date)
        (reserveUpd rtb.number_of_rooms now) s.roomInventory).1, none) := by
    have hz : bd.check_in_date + ((0 : Nat) : Int) = bd.check_in_date := by
      simp
    rw [hz]
    exact reserveNight_found s.roomInventory bd.hotel_id rtb.room_type
      bd.check_in_date rtb.number_of_rooms now row hrow hge
  have hne : ¬(bd.hotel_id = bd.hotel_id ∧ rtb.room_type = rtb.room_type ∧
      bd.check_in_date + 1 = bd.check_in_date) := by
    rintro ⟨-, -, hx⟩
    omega
  have hfind1 : findInventory (updateOneBy
      (invKeyMatches bd.hotel_id rtb.room_type bd.check_in_date)
      (reserveUpd rtb.number_of_rooms now) s.roomInventory).1 bd.hotel_id
      rtb.room_type (bd.check_in_date + 1) = none := by
    have hother := findInventory_reserveNight_other s.roomInventory bd.hotel_id
      rtb.room_type bd.hotel_id rtb.room_type bd.check_in_date
      rtb.number_of_rooms now (bd.check_in_date + 1) hne
    rw [reserveNight_found s.roomInventory bd.hotel_id rtb.room_type
      bd.check_in_date rtb.number_of_rooms now row hrow hge] at hother
    rw [hother]
    exact habsent
  have h1 : reserveNight (updateOneBy
      (invKeyMatches bd.hotel_id rtb.room_type bd.check_in_date)
      (reserveUpd rtb.number_of_rooms now) s.roomInventory).1 bd.hotel_id
      rtb.room_type (bd.check_in_date + ((1 : Nat) : Int))
      rtb.number_of_rooms now =
      ((updateOneBy (invKeyMatches bd.hotel_id rtb.room_type bd.check_in_date)
        (reserveUpd rtb.number_of_rooms now) s.roomInventory).1,
       some (.inventoryNotConfigured rtb.room_type (bd.check_in_date + 1))) := by
    have ho : bd.check_in_date + ((1 : Nat) : Int) = bd.check_in_date + 1 := by
      simp
    rw [ho]
    exact reserveNight_absent _ bd.hotel_id rtb.room_type
      (bd.check_in_date + 1) rtb.number_of_rooms now hfind1
  have hloop : reserveLoop bd.hotel_id rtb.room_type bd.check_in_date
      rtb.number_of_rooms now s.roomInventory
      (List.range (bd.check_out_date - bd.check_in_date).toNat) =
      ((updateOneBy (invKeyMatches bd.hotel_id rtb.room_type bd.check_in_date)
        (reserveUpd rtb.number_of_rooms now) s.roomInventory).1,
       some (.inventoryNotConfigured rtb.room_type (bd.check_in_date + 1))) := by
    rw [hrange]
    simp only [reserveLoop, h0, h1]
  have hproc : processRoomTypes s.rooms bd.hotel_id bd.check_in_date
      (bd.check_out_date - bd.check_in_date) now s.roomInventory 0
      bd.room_type_bookings =
      ((updateOneBy (invKeyMatches bd.hotel_id rtb.room_type bd.check_in_date)
        (reserveUpd rtb.number_of_rooms now) s.roomInventory).1,
       .error (.inventoryNotConfigured rtb.room_type (bd.check_in_date + 1))) := by
    rw [hrtbs]
    exact processRoomTypes_head_fail s.rooms bd.hotel_id bd.check_in_date
      (bd.check_out_date - bd.check_in_date) now s.roomInventory _ 0 rtb []
      _ hloop
  rw [create_booking_error_of_process s bd newId now _ _ hproc]
  refine ⟨rfl, ?_⟩
  exact find?_updateOneBy_self
    (invKeyMatches bd.hotel_id rtb.room_type bd.check_in_date)
    (reserveUpd rtb.number_of_rooms now) s.roomInventory row hrow
    (by rw [invKey_reserveUpd]; exact List.find?_some hrow)

/-- C3 amended witness row. -/
def c3wRow : InventoryRow :=
  { hotel_id := "h2", room_type := "twin", date := 10, total_rooms := 3,
    available_rooms := 3, locked_rooms := 0, booked_rooms := 0, updated_at := 0 }

/-- C3 amended witness input: two nights, only the first configured. -/
def c3wInput : BookingInputT :=
  { hotel_id := "h2", guest := plainGuest, booking_source := "ota",
    check_in_date := 10, check_out_date := 12, number_of_guests := 2,
    rate_plan := none,
    room_type_bookings := [{ room_type := "twin", number_of_rooms := 2,
                             room_ids := none }],
    special_requests := none }

/-- C3 amended witness state. -/
def c3wState : DBState :=
  { bookings := [], rooms := [], roomInventory := [c3wRow], hotels := [] }

/-- Witness for the amended C3 on a concrete two-night request. -/
theorem c3_amended_witness :
    (create_booking c3wState c3wInput "b9" 8).2 =
      .error (.inventoryNotConfigured "twin" 11) ∧
    findInventory (create_booking c3wState c3wInput "b9" 8).1.roomInventory
        "h2" "twin" 10 =
      some { c3wRow with available_rooms := c3wRow.available_rooms - 2,
                         locked_rooms := c3wRow.locked_rooms + 2,
                         updated_at := 8 } :=
  c3_amended_no_compensation c3wState c3wInput "b9" 8
    { room_type := "twin", number_of_rooms := 2, room_ids := none } c3wRow
    rfl rfl (by decide) (by decide) (by decide)

/-- C4 scenario: a CONFIRMED one-night booking whose ledger row has no
locked rooms (as after a prior partial failure or duplicate release). -/
def c4Booking : BookingDoc :=
  { id := "b1", hotel_id := "h1",
    room_type_bookings := [{ room_type := "deluxe", number_of_rooms := 1,
                             room_ids := [] }],
    room_type_summary := none, booking_number := "BK1", guest := plainGuest,
    booking_status := .confirmed, payment_status := .pending,
    booking_source := "direct", check_in_date := 0, check_out_date := 1,
    number_of_guests := 1, rate_plan := none, tax_amount := 0,
    base_amount := 0, total_amount := 0, payments := [], room_ids := [],
    check_in_time := none, check_out_time := none, special_requests := none,
    created_at := 0, updated_at := 0, created_by := "system",
    updated_by := "system" }

/-- C4 scenario: the ledger row with `locked_rooms = 0`. -/
def c4Row : InventoryRow :=
  { hotel_id := "h1", room_type := "deluxe", date := 0, total_rooms := 2,
    available_rooms := 2, locked_rooms := 0, booked_rooms := 0, updated_at := 0 }

/-- C4 scenario: the database. -/
def c4State : DBState :=
  { bookings := [c4Booking], rooms := [], roomInventory := [c4Row],
    hotels := [] }

/-- Counterexample to C4: cancelling this CONFIRMED booking releases a night
whose `locked_rooms` is already 0; the unguarded `$inc` drives the source
counter to -1 instead of clamping to a no-op — no LedgerInconsistency
safeguard exists. -/
theorem c4_counterexample :
    (cancel_booking c4State "b1" 3).2 = .ok true ∧
    findInventory (cancel_booking c4State "b1" 3).1.roomInventory
        "h1" "deluxe" 0 =
      some { c4Row with locked_rooms := -1, available_rooms := 3 } ∧
    ({ c4Row with locked_rooms := -1,
                  available_rooms := 3 } : InventoryRow).locked_rooms < 0 := by
  decide

/-- C4 amended: the release performed by `cancel_booking` is an unguarded,
unclamped `$inc`: whatever the current counter values, it debits the source
counter (`locked_rooms` or `booked_rooms`) by `k` and credits
`available_rooms` by `k`, so a duplicate release debits the counter again —
applied twice from `locked_rooms` it leaves `locked_rooms - k - k`, which is
negative whenever `locked_rooms < 2k`; there is no no-op clamp and no
LedgerInconsistency warning. -/
theorem c4_amended_release_unguarded :
    (∀ (led : Ledger) (h rt : String) (d k : Int) (b : Bool)
       (row : InventoryRow), findInventory led h rt d = some row →
       findInventory (cancelReleaseNight led h rt d k b) h rt d =
         some (releaseUpd k b row)) ∧
    (∀ (led : Ledger) (h rt : String) (d k : Int) (row : InventoryRow),
       findInventory led h rt d = some row →
       findInventory (cancelReleaseNight (cancelReleaseNight led h rt d k true)
           h rt d k true) h rt d =
         some { row with locked_rooms := row.locked_rooms - k - k,
                         available_rooms := row.available_rooms + k + k }) := by
  have base : ∀ (led : Ledger) (h rt : String) (d k : Int) (b : Bool)
      (row : InventoryRow), findInventory led h rt d = some row →
      findInventory (cancelReleaseNight led h rt d k b) h rt d =
        some (releaseUpd k b row) := by
    intro led h rt d k b row hfind
    unfold cancelReleaseNight
    exact find?_updateOneBy_self (invKeyMatches h rt d) (releaseUpd k b) led
      row hfind (by rw [invKey_releaseUpd]; exact List.find?_some hfind)
  refine ⟨base, ?_⟩
  intro led h rt d k row hfind
  have h1 := base led h rt d k true row hfind
  have h2 := base (cancelReleaseNight led h rt d k true) h rt d k true
    (releaseUpd k true row) h1
  rw [h2]
  rfl

/-- C4 amended witness row. -/
def c4wRow : InventoryRow :=
  { hotel_id := "h3", room_type := "king", date := 2, total_rooms := 1,
    available_rooms := 0, locked_rooms := 1, booked_rooms := 0, updated_at := 0 }

/-- Witness for the amended C4: a double release of 1 king room leaves
`locked_rooms = -1`. -/
theorem c4_amended_witness :
    findInventory (cancelReleaseNight (cancelReleaseNight [c4wRow] "h3" "king"
        2 1 true) "h3" "king" 2 1 true) "h3" "king" 2 =
      some { c4wRow with locked_rooms := c4wRow.locked_rooms - 1 - 1,
                         available_rooms := c4wRow.available_rooms + 1 + 1 } :=
  c4_amended_release_unguarded.2 [c4wRow] "h3" "king" 2 1 c4wRow (by decide)

/-- C5 scenario: a hotel with one available deluxe room and a one-night
inventory row. -/
def c5Room : RoomDoc :=
  { id := "r1", hotel_id := "h1", room_number := "101", room_type := "deluxe",
    status := .available, price_per_night := 100, is_active := true,
    updated_at := 0 }

/-- C5 scenario: the one-night inventory row. -/
def c5Row : InventoryRow :=
  { hotel_id := "h1", room_type := "deluxe", date := 0, total_rooms := 2,
    available_rooms := 2, locked_rooms := 0, booked_rooms := 0, updated_at := 0 }

/-- C5 scenario: a one-night, one-room booking request. -/
def c5Input : BookingInputT :=
  { hotel_id := "h1", guest := plainGuest, booking_source := "direct",
    check_in_date := 0, check_out_date := 1, number_of_guests := 1,
    rate_plan := none,
    room_type_bookings := [{ room_type := "deluxe", number_of_rooms := 1,
                             room_ids := none }],
    special_requests := none }

/-- C5 scenario: the initial database. -/
def c5State : DBState :=
  { bookings := [], rooms := [c5Room], roomInventory := [c5Row], hotels := [] }

/-- C5 failing input evaluated: a booking created by `create_booking` is
CONFIRMED, and the submitted assignment is valid in the claim's sense (one
id for the one reserved deluxe room, and `r1` exists in the hotel with
matching type and status available) — yet `assign_rooms_to_booking` fails,
because it reads `booking["room_type_summary"]`, a key `create_booking`
never writes (`KeyError`), and mutates nothing. -/
theorem c5_assignment_fails_on_created_booking :
    ((create_booking c5State c5Input "b1" 0).1.bookings.find?
        (fun b => b.id == "b1")).map (fun b => b.booking_status) =
      some BookingStatus.confirmed ∧
    ((create_booking c5State c5Input "b1" 0).1.bookings.find?
        (fun b => b.id == "b1")).map (fun b => b.room_type_summary) =
      some none ∧
    (assign_rooms_to_booking (create_booking c5State c5Input "b1" 0).1 "b1"
        [{ room_type := "deluxe", room_ids := ["r1"] }] 1).2 =
      .error .keyErrorRoomTypeSummary ∧
    (assign_rooms_to_booking (create_booking c5State c5Input "b1" 0).1 "b1"
        [{ room_type := "deluxe", room_ids := ["r1"] }] 1).1.roomInventory =
      (create_booking c5State c5Input "b1" 0).1.roomInventory ∧
    (assign_rooms_to_booking (create_booking c5State c5Input "b1" 0).1 "b1"
        [{ room_type := "deluxe", room_ids := ["r1"] }] 1).1.rooms =
      (create_booking c5State c5Input "b1" 0).1.rooms ∧
    ((assign_rooms_to_booking (create_booking c5State c5Input "b1" 0).1 "b1"
        [{ room_type := "deluxe", room_ids := ["r1"] }] 1).1.bookings.map
      (fun b => (b.booking_status, b.room_ids))) =
      ((create_booking c5State c5Input "b1" 0).1.bookings.map
      (fun b => (b.booking_status, b.room_ids))) := by
  decide

/-- C6 scenario: a CONFIRMED booking carrying a `room_type_summary` with two
groups. -/
def c6Booking : BookingDoc :=
  { id := "b1", hotel_id := "h1", room_type_bookings := [],
    room_type_summary := some [{ room_type := "alpha", number_of_rooms := 1 },
                               { room_type := "beta", number_of_rooms := 1 }],
    booking_number := "BK6", guest := plainGuest,
    booking_status := .confirmed, payment_status := .pending,
    booking_source := "direct", check_in_date := 0, check_out_date := 1,
    number_of_guests := 2, rate_plan := none, tax_amount := 0,
    base_amount := 0, total_amount := 0, payments := [], room_ids := [],
    check_in_time := none, check_out_time := none, special_requests := none,
    created_at := 0, updated_at := 0, created_by := "system",
    updated_by := "system" }

/-- C6 scenario: the available alpha room. -/
def c6RoomA : RoomDoc :=
  { id := "rA", hotel_id := "h1", room_number := "1", room_type := "alpha",
    status := .available, price_per_night := 50, is_active := true,
    updated_at := 0 }

/-- C6 scenario: the beta room, under maintenance, which fails validation. -/
def c6RoomB : RoomDoc :=
  { id := "rB", hotel_id := "h1", room_number := "2", room_type := "beta",
    status := .maintenance, price_per_night := 50, is_active := true,
    updated_at := 0 }

/-- C6 scenario: the alpha ledger row with one locked room. -/
def c6RowA : InventoryRow :=
  { hotel_id := "h1", room_type := "alpha", date := 0, total_rooms := 1,
    available_rooms := 0, locked_rooms := 1, booked_rooms := 0, updated_at := 0 }

/-- C6 scenario: the beta ledger row with one locked room. -/
def c6RowB : InventoryRow :=
  { hotel_id := "h1", room_type := "beta", date := 0, total_rooms := 1,
    available_rooms := 0, locked_rooms := 1, booked_rooms := 0, updated_at := 0 }

/-- C6 scenario: the database. -/
def c6State : DBState :=
  { bookings := [c6Booking], rooms := [c6RoomA, c6RoomB],
    roomInventory := [c6RowA, c6RowB], hotels := [] }

/-- C6 scenario: a two-group assignment whose second group is invalid. -/
def c6Assignments : List RoomAssignmentInputT :=
  [{ room_type := "alpha", room_ids := ["rA"] },
   { room_type := "beta", room_ids := ["rB"] }]

/-- Counterexample to C6: the second assignment group fails validation (its
room is under maintenance), yet the call has already moved the first group's
night from locked to booked — the returned inventory differs from the
initial one, so a validation failure does not imply nothing was mutated. -/
theorem c6_counterexample :
    (assign_rooms_to_booking c6State "b1" c6Assignments 9).2 =
      .error (.invalidRooms "beta") ∧
    findInventory (assign_rooms_to_booking c6State "b1" c6Assignments
        9).1.roomInventory "h1" "alpha" 0 =
      some { c6RowA with locked_rooms := 0, booked_rooms := 1,
                         updated_at := 9 } ∧
    (assign_rooms_to_booking c6State "b1" c6Assignments 9).1.roomInventory ≠
      c6State.roomInventory := by
  decide

/-- C6 amended: validation and mutation interleave per assignment group in
submission order, so rejection-before-mutation holds only group-locally:
when the FIRST group fails validation nothing has been modified and the
state is returned unchanged with the error, but (per the counterexample) a
later group's validation failure leaves earlier groups' ledger mutations in
place. -/
theorem c6_amended_first_group_validation (s : DBState) (bid : String)
    (a : RoomAssignmentInputT) (rest : List RoomAssignmentInputT) (now : Int)
    (b : BookingDoc) (e : BookingError)
    (hfind : s.bookings.find? (fun x => x.id == bid) = some b)
    (hst : b.booking_status = .confirmed)
    (hval : validateGroup b.hotel_id b.room_type_summary s.rooms a = .error e) :
    assign_rooms_to_booking s bid (a :: rest) now = (s, .error e) := by
  simp only [assign_rooms_to_booking, hfind, hst, bne_self_eq_false,
    Bool.false_eq_true, if_false, assignLoop, hval]

/-- C6 amended witness booking: CONFIRMED with no `room_type_summary`. -/
def c6wBooking : BookingDoc :=
  { c6Booking with id := "b2", room_type_summary := none }

/-- C6 amended witness state. -/
def c6wState : DBState :=
  { bookings := [c6wBooking], rooms := [], roomInventory := [], hotels := [] }

/-- Witness for the amended C6: a first group failing validation returns the
state unchanged. -/
theorem c6_amended_witness :
    assign_rooms_to_booking c6wState "b2"
        [{ room_type := "x", room_ids := [] }] 2 =
      (c6wState, .error .keyErrorRoomTypeSummary) :=
  c6_amended_first_group_validation c6wState "b2"
    { room_type := "x", room_ids := [] } [] 2 c6wBooking
    .keyErrorRoomTypeSummary (by decide) rfl (by decide)

/-- C7: a booking whose status is CHECKED_OUT or CANCELLED is terminal —
`assign_rooms_to_booking`, `cancel_booking` and `checkout_booking` each
reject it with their validation error before performing any write, returning
the database unchanged. -/
theorem c7_terminal_statuses (s : DBState) (bid : String)
    (asg : List RoomAssignmentInputT) (now : Int) (b : BookingDoc)
    (hfind : s.bookings.find? (fun x => x.id == bid) = some b)
    (hterm : b.booking_status = .checkedOut ∨ b.booking_status = .cancelled) :
    assign_rooms_to_booking s bid asg now = (s, .error .notConfirmed) ∧
    cancel_booking s bid now = (s, .error .notCancellable) ∧
    checkout_booking s bid now = (s, .error .notCheckedIn) := by
  rcases hterm with hst | hst <;>
    exact ⟨by simp only [assign_rooms_to_booking, hfind, hst]; rfl,
           by simp only [cancel_booking, hfind, hst]; rfl,
           by simp only [checkout_booking, hfind, hst]; rfl⟩

/-- C7 witness booking: already cancelled. -/
def c7Booking : BookingDoc :=
  { c6Booking with id := "b7", booking_status := .cancelled }

/-- C7 witness state. -/
def c7State : DBState :=
  { bookings := [c7Booking], rooms := [], roomInventory := [], hotels := [] }

/-- Witness for C7: all three operations reject the cancelled booking and
leave the state unchanged. -/
theorem c7_witness :
    assign_rooms_to_booking c7State "b7" [] 4 =
      (c7State, .error .notConfirmed) ∧
    cancel_booking c7State "b7" 4 = (c7State, .error .notCancellable) ∧
    checkout_booking c7State "b7" 4 = (c7State, .error .notCheckedIn) :=
  c7_terminal_statuses c7State "b7" [] 4 c7Booking rfl (Or.inr rfl)

/-- C8: `add_payment` succeeds for any existing booking (its status is never
examined), appends exactly the built payment record to the stored payments
list, and sets `payment_status` as the pure function of the sum of all
payment amounts (the stored ones plus the new one) against `total_amount`:
PAID when the sum reaches `total_amount`, PARTIAL when it is positive but
short, PENDING otherwise. -/
theorem c8_add_payment_pure_status (s : DBState) (key : String)
    (p : PaymentInputT) (now : Int) (b : BookingDoc)
    (hfind : findBookingHelper s.bookings key = some b)
    (hfirst : s.bookings.find? (fun x => x.id == b.id) = some b) :
    (add_payment s key p now).2 =
      .ok { b with
            payments := b.payments ++ [paymentRecord p now],
            payment_status :=
              if b.total_amount ≤
                  (b.payments.map (fun q => q.amount)).sum + p.amount then
                PaymentStatus.paid
              else if 0 < (b.payments.map (fun q => q.amount)).sum + p.amount then
                PaymentStatus.partiallyPaid
              else PaymentStatus.pending,
            updated_at := now,
            updated_by := "system" } ∧
    ((b.payments ++ [paymentRecord p now]).map (fun q => q.amount)).sum =
      (b.payments.map (fun q => q.amount)).sum + p.amount := by
  constructor
  · have hre := find?_updateOneBy_self (fun x => x.id == b.id)
      (addPaymentUpd p now (paymentStatusOf b p.amount)) s.bookings b hfirst
      (by simp [addPaymentUpd])
    simp only [add_payment, hfind, hre]
    rfl
  · simp [paymentRecord]

/-- C8 witness booking: a CANCELLED booking with total 110 and no payments
(payment applies regardless of status). -/
def c8Booking : BookingDoc :=
  { c6Booking with
      id := "b8"
      booking_number := "BK8"
      booking_status := .cancelled
      total_amount := 110 }

/-- C8 witness state. -/
def c8State : DBState :=
  { bookings := [c8Booking], rooms := [], roomInventory := [], hotels := [] }

/-- C8 witness payment input covering the full amount. -/
def c8Pay : PaymentInputT :=
  { method := "card", amount := 110, transaction_id := none, notes := none }

/-- Witness for C8: paying 110 against a total of 110 yields PAID and the
appended record, even though the booking is CANCELLED. -/
theorem c8_witness :
    (add_payment c8State "b8" c8Pay 2).2 =
      .ok { c8Booking with
            payments := c8Booking.payments ++ [paymentRecord c8Pay 2],
            payment_status := PaymentStatus.paid,
            updated_at := 2,
            updated_by := "system" } := by
  have h := (c8_add_payment_pure_status c8State "b8" c8Pay 2 c8Booking rfl
    rfl).1
  rw [h]
  norm_num [c8Booking, c6Booking, c8Pay]

lemma upsert_found (led : Ledger) (h rt : String) (d dt da now : Int)
    (row : InventoryRow) (hrow : findInventory led h rt d = some row) :
    upsert_room_inventory_for_date led h rt d dt da now =
      (updateOneBy (invKeyMatches h rt d) (seedUpd dt da now) led).1 := by
  have hcnt := updateOneBy_count_of_find? (invKeyMatches h rt d)
    (seedUpd dt da now) led row hrow
  simp only [upsert_room_inventory_for_date, hcnt]
  simp

/-- C9: `delete_room` marks the room inactive (status OUT_OF_ORDER) and
applies exactly one `(-1, -1)` inventory seed, to the current date's row
only — that row's `total_rooms` and `available_rooms` drop by one and every
other (hotel, room_type, date) row is untouched — and reports success.  The
seed itself is `update_room_inventory`, modelled from the spec because its
definition is not under `src/`. -/
theorem c9_delete_room_current_date_only (s : DBState) (id : String)
    (today now : Int) (room : RoomDoc) (row : InventoryRow)
    (hroom : s.rooms.find? (fun r => r.id == id) = some room)
    (hrow : findInventory s.roomInventory room.hotel_id room.room_type today =
      some row) :
    (delete_room s id today now).2 = .ok true ∧
    (delete_room s id today now).1.rooms.find? (fun r => r.id == id) =
      some (softDeleteUpd now room) ∧
    findInventory (delete_room s id today now).1.roomInventory room.hotel_id
        room.room_type today =
      some { row with total_rooms := row.total_rooms - 1,
                      available_rooms := row.available_rooms - 1,
                      updated_at := now } ∧
    (∀ (h' rt' : String) (d' : Int),
       ¬(h' = room.hotel_id ∧ rt' = room.room_type ∧ d' = today) →
       findInventory (delete_room s id today now).1.roomInventory h' rt' d' =
         findInventory s.roomInventory h' rt' d') := by
  have hprf : (fun r : RoomDoc => r.id == id) (softDeleteUpd now room) = true := by
    simpa [softDeleteUpd] using List.find?_some hroom
  have hcnt := updateOneBy_count_of_find? (fun r : RoomDoc => r.id == id)
    (softDeleteUpd now) s.rooms room hroom
  have hfr := find?_updateOneBy_self (fun r : RoomDoc => r.id == id)
    (softDeleteUpd now) s.rooms room hroom hprf
  have hups := upsert_found s.roomInventory room.hotel_id room.room_type today
    (-1) (-1) now row hrow
  have hled := find?_updateOneBy_self
    (invKeyMatches room.hotel_id room.room_type today) (seedUpd (-1) (-1) now)
    s.roomInventory row hrow
    (by rw [invKey_seedUpd]; exact List.find?_some hrow)
  have hsd : seedUpd (-1) (-1) now row =
      { row with total_rooms := row.total_rooms - 1,
                 available_rooms := row.available_rooms - 1,
                 updated_at := now } := by
    simp [seedUpd, sub_eq_add_neg]
  refine ⟨?_, ?_, ?_, ?_⟩
  · simp only [delete_room, hroom, hcnt]
    rfl
  · simp only [delete_room, hroom, softDeleteUpd] at hfr ⊢
    exact hfr
  · simp only [delete_room, hroom, update_room_inventory, hups]
    rw [← hsd]
    exact hled
  · intro h' rt' d' hne
    have hother := find?_updateOneBy_other
      (invKeyMatches room.hotel_id room.room_type today)
      (invKeyMatches h' rt' d') (seedUpd (-1) (-1) now)
      (fun x hx => invKey_ne_false room.hotel_id room.room_type h' rt' today
        d' x hx hne)
      (fun x hx => by
        rw [invKey_seedUpd]
        exact invKey_ne_false room.hotel_id room.room_type h' rt' today d' x
          hx hne) s.roomInventory
    simp only [delete_room, hroom, update_room_inventory, hups]
    exact hother

/-- C9 witness room and row. -/
def c9Room : RoomDoc :=
  { id := "r9", hotel_id := "h9", room_number := "901", room_type := "twin",
    status := .available, price_per_night := 80, is_active := true,
    updated_at := 0 }

/-- C9 witness: the current date's row. -/
def c9RowToday : InventoryRow :=
  { hotel_id := "h9", room_type := "twin", date := 100, total_rooms := 7,
    available_rooms := 4, locked_rooms := 2, booked_rooms := 1, updated_at := 0 }

/-- C9 witness: a later date's row, which must stay untouched. -/
def c9RowLater : InventoryRow :=
  { hotel_id := "h9", room_type := "twin", date := 101, total_rooms := 7,
    available_rooms := 7, locked_rooms := 0, booked_rooms := 0, updated_at := 0 }

/-- C9 witness state. -/
def c9State : DBState :=
  { bookings := [], rooms := [c9Room],
    roomInventory := [c9RowToday, c9RowLater],
    hotels := [{ id := "h9", floor_count := 3, room_count := 10,
                 updated_at := 0 }] }

/-- Witness for C9: deleting room r9 on day 100 marks it inactive, drops the
day-100 row by (1, 1) and leaves the day-101 row alone. -/
theorem c9_witness :
    (delete_room c9State "r9" 100 6).2 = .ok true ∧
    (delete_room c9State "r9" 100 6).1.rooms.find? (fun r => r.id == "r9") =
      some (softDeleteUpd 6 c9Room) ∧
    findInventory (delete_room c9State "r9" 100 6).1.roomInventory "h9" "twin"
        100 =
      some { c9RowToday with total_rooms := c9RowToday.total_rooms - 1,
                             available_rooms := c9RowToday.available_rooms - 1,
                             updated_at := 6 } ∧
    findInventory (delete_room c9State "r9" 100 6).1.roomInventory "h9" "twin"
        101 = findInventory c9State.roomInventory "h9" "twin" 101 := by
  have h := c9_delete_room_current_date_only c9State "r9" 100 6 c9Room
    c9RowToday rfl rfl
  exact ⟨h.1, h.2.1, h.2.2.1, h.2.2.2 "h9" "twin" 101 (by decide)⟩

/-- The nightly rate `create_booking` reads for a room type (0 when the
pricing lookup finds nothing, in which case the lookup itself errors). -/
def priceOfD (rooms : List RoomDoc) (h rt : String) : ℚ :=
  ((findPricingRoom rooms h rt).map (fun r => r.price_per_night)).getD 0

lemma list_sum_nonpos (l : List ℚ) (h : ∀ x ∈ l, x ≤ 0) : l.sum ≤ 0 := by
  induction l with
  | nil => simp
  | cons x xs ih =>
    rw [List.sum_cons]
    exact add_nonpos (h x (List.mem_cons_self x xs))
      (ih (fun y hy => h y (List.mem_cons_of_mem x hy)))

lemma processRoomTypes_no_nights (rooms : List RoomDoc) (h : String)
    (ci now : Int) (nights : Int) (hn : nights.toNat = 0) :
    ∀ (rtbs : List RoomTypeBookingsInputT) (led : Ledger) (acc : ℚ),
      (∀ rtb ∈ rtbs, (findPricingRoom rooms h rtb.room_type).isSome) →
      processRoomTypes rooms h ci nights now led acc rtbs =
        (led, .ok (acc + (rtbs.map (fun rtb =>
          priceOfD rooms h rtb.room_type * (nights : ℚ) *
            (rtb.number_of_rooms : ℚ))).sum)) := by
  have hrange : List.range nights.toNat = [] := by rw [hn]; rfl
  intro rtbs
  induction rtbs with
  | nil =>
    intro led acc _
    simp only [processRoomTypes, List.map_nil, List.sum_nil, add_zero]
  | cons rtb rest ih =>
    intro led acc hpr
    obtain ⟨rm, hm⟩ := Option.isSome_iff_exists.mp
      (hpr rtb (List.mem_cons_self rtb rest))
    have hrec := ih led (acc + rm.price_per_night * (nights : ℚ) *
      (rtb.number_of_rooms : ℚ))
      (fun x hx => hpr x (List.mem_cons_of_mem rtb hx))
    simp only [processRoomTypes, hrange, reserveLoop, hm, hrec]
    simp [priceOfD, hm, add_assoc]

/-- C10: when `check_out_date <= check_in_date` the per-night loop of
`create_booking` runs zero times — the ledger is returned exactly as it was —
yet (with pricing configured for every requested room type) the booking is
still created with status CONFIRMED and
`base_amount = sum over groups of price_per_night * nights * number_of_rooms`,
which is zero or negative whenever prices and room counts are nonnegative. -/
theorem c10_nonpositive_nights_creates_booking (s : DBState)
    (bd : BookingInputT) (newId : String) (now : Int)
    (hle : bd.check_out_date ≤ bd.check_in_date)
    (hpr : ∀ rtb ∈ bd.room_type_bookings,
      (findPricingRoom s.rooms bd.hotel_id rtb.room_type).isSome) :
    (create_booking s bd newId now).1.roomInventory = s.roomInventory ∧
    (∃ doc, (create_booking s bd newId now).2 = .ok doc ∧
       doc.booking_status = .confirmed ∧
       doc.base_amount = (bd.room_type_bookings.map (fun rtb =>
         priceOfD s.rooms bd.hotel_id rtb.room_type *
           ((bd.check_out_date - bd.check_in_date : Int) : ℚ) *
           (rtb.number_of_rooms : ℚ))).sum) ∧
    ((∀ rtb ∈ bd.room_type_bookings, 0 ≤ rtb.number_of_rooms ∧
        0 ≤ priceOfD s.rooms bd.hotel_id rtb.room_type) →
      ∀ doc, (create_booking s bd newId now).2 = .ok doc →
        doc.base_amount ≤ 0) := by
  have hn : (bd.check_out_date - bd.check_in_date).toNat = 0 :=
    Int.toNat_of_nonpos (by omega)
  have hproc := processRoomTypes_no_nights s.rooms bd.hotel_id
    bd.check_in_date now (bd.check_out_date - bd.check_in_date) hn
    bd.room_type_bookings s.roomInventory 0 hpr
  have hsum_nonpos : (∀ rtb ∈ bd.room_type_bookings,
      0 ≤ rtb.number_of_rooms ∧
      0 ≤ priceOfD s.rooms bd.hotel_id rtb.room_type) →
      (bd.room_type_bookings.map (fun rtb =>
        priceOfD s.rooms bd.hotel_id rtb.room_type *
          ((bd.check_out_date - bd.check_in_date : Int) : ℚ) *
          (rtb.number_of_rooms : ℚ))).sum ≤ 0 := by
    intro hnn
    apply list_sum_nonpos
    intro x hx
    rcases List.mem_map.mp hx with ⟨rtb, hmem, rfl⟩
    have h1 : (0 : ℚ) ≤ priceOfD s.rooms bd.hotel_id rtb.room_type :=
      (hnn rtb hmem).2
    have h2 : ((bd.check_out_date - bd.check_in_date : Int) : ℚ) ≤ 0 := by
      have : (bd.check_out_date - bd.check_in_date : Int) ≤ 0 := by omega
      exact_mod_cast Int.cast_nonpos.mpr this
    have h3 : (0 : ℚ) ≤ (rtb.number_of_rooms : ℚ) := by
      exact_mod_cast Int.cast_nonneg.mpr (hnn rtb hmem).1
    have h12 : priceOfD s.rooms bd.hotel_id rtb.room_type *
        ((bd.check_out_date - bd.check_in_date : Int) : ℚ) ≤ 0 :=
      mul_nonpos_iff.mpr (Or.inl ⟨h1, h2⟩)
    exact mul_nonpos_iff.mpr (Or.inr ⟨h12, h3⟩)
  refine ⟨?_, ?_, ?_⟩
  · simp only [create_booking, hproc]
  · simp only [create_booking, hproc]
    exact ⟨_, rfl, rfl, zero_add _⟩
  · intro hnn doc hdoc
    simp only [create_booking, hproc] at hdoc
    have hbase : doc.base_amount = 0 + (bd.room_type_bookings.map (fun rtb =>
        priceOfD s.rooms bd.hotel_id rtb.room_type *
          ((bd.check_out_date - bd.check_in_date : Int) : ℚ) *
          (rtb.number_of_rooms : ℚ))).sum := by
      cases hdoc
      rfl
    rw [hbase, zero_add]
    exact hsum_nonpos hnn

/-- C10 witness: pricing exists, zero nights. -/
def c10Room : RoomDoc :=
  { id := "r10", hotel_id := "hX", room_number := "1", room_type := "eco",
    status := .available, price_per_night := 30, is_active := true,
    updated_at := 0 }

/-- C10 witness input: check-out equals check-in. -/
def c10Input : BookingInputT :=
  { hotel_id := "hX", guest := plainGuest, booking_source := "walk_in",
    check_in_date := 5, check_out_date := 5, number_of_guests := 1,
    rate_plan := none,
    room_type_bookings := [{ room_type := "eco", number_of_rooms := 1,
                             room_ids := none }],
    special_requests := none }

/-- C10 witness state: note there is NO inventory row at all, yet creation
succeeds because the night loop never runs. -/
def c10State : DBState :=
  { bookings := [], rooms := [c10Room], roomInventory := [], hotels := [] }

/-- Witness for C10: a zero-night booking leaves the (empty) ledger alone
and is created. -/
theorem c10_witness :
    (create_booking c10State c10Input "b10" 1).1.roomInventory =
      c10State.roomInventory ∧
    (∃ doc, (create_booking c10State c10Input "b10" 1).2 = .ok doc ∧
       doc.booking_status = .confirmed ∧
       doc.base_amount = (c10Input.room_type_bookings.map (fun rtb =>
         priceOfD c10State.rooms c10Input.hotel_id rtb.room_type *
           ((c10Input.check_out_date - c10Input.check_in_date : Int) : ℚ) *
           (rtb.number_of_rooms : ℚ))).sum) :=
  ⟨(c10_nonpositive_nights_creates_booking c10State c10Input "b10" 1
      (by decide) (by decide)).1,
   (c10_nonpositive_nights_creates_booking c10State c10Input "b10" 1
      (by decide) (by decide)).2.1⟩
